import Mathlib

/-!
# The `Shape` interface of pbrt (`src/core/shape.h`)

A shallow embedding of the abstract class `pbrt::Shape`.

* The four public data members become the record `ShapeData`.
* Pure virtual member functions (`ObjectBound`, `Intersect`, `Area`) become
  fields of `Shape`: a derived class supplies them.
* Virtual member functions with a body in the base class (`IntersectP`,
  the area-based `Pdf`, `WorldBound`) become a definition for the body of
  the base class, an optional override slot in `Shape`, and a dispatch
  function that picks the override when there is one.
* The types that `shape.h` takes from other headers (`Float`, `Transform`,
  `Bounds3f`, `Ray`, `SurfaceInteraction`, `Interaction`) are type
  parameters.
* For the data members before and after a call, `DerivedClass` gives the
  same member functions in state-passing form.
-/

namespace pbrt

/-! ## The type `Float`

`pbrt.h` declares `Float` as `float`, or as `double` when
`PBRT_FLOAT_AS_DOUBLE` is defined.  Both are IEEE 754 binary formats; they
are modelled by their three bit fields. -/

/-- Choice made by the typedef of `Float` in `pbrt.h`. -/
inductive FloatKind where
  | single
  | double
  deriving DecidableEq, Repr

/-- Width of the exponent field. -/
def FloatKind.expBits : FloatKind → Nat
  | .single => 8
  | .double => 11

/-- Width of the fraction field. -/
def FloatKind.fracBits : FloatKind → Nat
  | .single => 23
  | .double => 52

/-- Exponent field of infinities and NaNs (all ones). -/
def FloatKind.expMax (k : FloatKind) : Nat := 2 ^ k.expBits - 1

/-- Exponent bias. -/
def FloatKind.bias (k : FloatKind) : Nat := 2 ^ (k.expBits - 1) - 1

/-- An IEEE 754 binary floating-point datum: sign bit, biased exponent field
and fraction field. -/
structure IEEEFloat (k : FloatKind) where
  sign : Bool
  expo : Nat
  frac : Nat
  deriving DecidableEq, Repr

namespace IEEEFloat

variable {k : FloatKind}

/-- Both fields fit their widths. -/
def Valid (x : IEEEFloat k) : Prop := x.expo ≤ k.expMax ∧ x.frac < 2 ^ k.fracBits

instance (x : IEEEFloat k) : Decidable x.Valid := by
  unfold Valid; infer_instance

def isNaN (x : IEEEFloat k) : Bool := x.expo == k.expMax && x.frac != 0

def isInf (x : IEEEFloat k) : Bool := x.expo == k.expMax && x.frac == 0

def isZero (x : IEEEFloat k) : Bool := x.expo == 0 && x.frac == 0

/-- Neither an infinity nor a NaN (`std::isfinite`). -/
def isFinite (x : IEEEFloat k) : Bool := x.expo != k.expMax

/-- The quiet NaN produced by an invalid operation.  IEEE 754 leaves its sign
and payload to the implementation; the model keeps one canonical NaN. -/
def nan (k : FloatKind) : IEEEFloat k := ⟨false, k.expMax, 2 ^ (k.fracBits - 1)⟩

def inf (k : FloatKind) (s : Bool) : IEEEFloat k := ⟨s, k.expMax, 0⟩

def zero (k : FloatKind) (s : Bool) : IEEEFloat k := ⟨s, 0, 0⟩

/-- The value 1, which the integer literal `1` converts to. -/
def one (k : FloatKind) : IEEEFloat k := ⟨false, k.bias, 0⟩

/-- Integer significand `m` of a finite datum, whose magnitude is
`m * 2 ^ scale`. -/
def significand (x : IEEEFloat k) : Nat :=
  if x.expo = 0 then x.frac else 2 ^ k.fracBits + x.frac

/-- Power of two that weighs the integer significand of a finite datum. -/
def scale (x : IEEEFloat k) : Int :=
  (max x.expo 1 : Nat) - ((k.bias + k.fracBits : Nat) : Int)

/-- Quotient `a / b` of naturals rounded to the nearest integer, ties to even. -/
def roundNearestEven (a b : Nat) : Nat :=
  let q := a / b
  let r := a % b
  if b < 2 * r ∨ (2 * r = b ∧ q % 2 = 1) then q + 1 else q

/-- Binary logarithm rounded down, by repeated halving; `fuel` bounds the
number of halvings. -/
def log2Aux : Nat → Nat → Nat
  | 0, _ => 0
  | fuel + 1, n => if n < 2 then 0 else log2Aux fuel (n / 2) + 1

/-- Position of the leading bit of `n`. -/
def ilog2 (n : Nat) : Nat := log2Aux n n

/-- The positive rational `n / d * 2 ^ e` rounded to the format (round to
nearest, ties to even), with sign `s`. -/
def round (k : FloatKind) (s : Bool) (n d : Nat) (e : Int) : IEEEFloat k :=
  -- n / d * 2 ^ e = num / den
  let num := n * 2 ^ e.toNat
  let den := d * 2 ^ (-e).toNat
  -- binary exponent of num / den
  let k0 : Int := (ilog2 num : Int) - (ilog2 den : Int)
  let ex : Int := if den * 2 ^ k0.toNat ≤ num * 2 ^ (-k0).toNat then k0 else k0 - 1
  -- exponent of the binade the result is rounded in (subnormals share one)
  let ec : Int := max ex (1 - (k.bias : Int))
  -- exponent of the unit in the last place
  let qe : Int := ec - (k.fracBits : Int)
  let m := roundNearestEven (num * 2 ^ (-qe).toNat) (den * 2 ^ qe.toNat)
  let carry := decide (2 ^ (k.fracBits + 1) ≤ m)
  let m1 := if carry then m / 2 else m
  let ec1 : Int := if carry then ec + 1 else ec
  if m1 < 2 ^ k.fracBits then ⟨s, 0, m1⟩
  else
    let be := (ec1 + (k.bias : Int)).toNat
    if k.expMax ≤ be then inf k s else ⟨s, be, m1 - 2 ^ k.fracBits⟩

/-- IEEE 754 division, round to nearest even. -/
def div (x y : IEEEFloat k) : IEEEFloat k :=
  let s := xor x.sign y.sign
  if x.isNaN || y.isNaN then nan k
  else if x.isInf then (if y.isInf then nan k else inf k s)
  else if y.isInf then zero k s
  else if y.isZero then (if x.isZero then nan k else inf k s)
  else if x.isZero then zero k s
  else round k s x.significand y.significand (x.scale - y.scale)

instance : One (IEEEFloat k) := ⟨one k⟩

instance : Zero (IEEEFloat k) := ⟨zero k false⟩

instance : Div (IEEEFloat k) := ⟨div⟩

end IEEEFloat

/-! ## Nullable output pointers -/

/-- Pointer argument of type `α *`: `none` is `nullptr`, `some v` points at a
cell that holds `v`. -/
abbrev Ptr (α : Type) := Option α

/-- Outcome of `Shape::Intersect`: the returned boolean and the cells behind
the two output pointers after the call. -/
structure IntersectResult (F SI : Type) where
  ret : Bool
  tHit : Ptr F
  isect : Ptr SI

/-! ## The class -/

/-- Public data of `Shape` (shape.h, lines 96 to 100). -/
structure ShapeData (T : Type) where
  ObjectToWorld : T
  WorldToObject : T
  reverseOrientation : Bool
  transformSwapsHandedness : Bool

/-- An object of a class derived from `Shape`: the data members of the base
class, the pure virtual member functions, and the override slots of the
virtual member functions that have a body in the base class. -/
structure Shape (F T B Ray SI Inter : Type) extends ShapeData T where
  ObjectBound : B
  Intersect : Ray → Ptr F → Ptr SI → (testAlphaTexture : Bool := true) → IntersectResult F SI
  Area : F
  WorldBoundOverride : Option B
  IntersectPOverride : Option (Ray → Bool → Bool)
  PdfOverride : Option (Inter → F)

variable {F T B Ray SI Inter : Type}

/-- Body of `Shape::IntersectP` (shape.h, lines 72 to 75). -/
def Shape.IntersectP (s : Shape F T B Ray SI Inter) (ray : Ray)
    (testAlphaTexture : Bool := true) : Bool :=
  (s.Intersect ray none none testAlphaTexture).ret

/-- Body of the area-based `Shape::Pdf` (shape.h, line 81). -/
def Shape.Pdf [One F] [Div F] (s : Shape F T B Ray SI Inter) (_ : Inter) : F :=
  1 / s.Area

/-- Virtual call `shape->IntersectP(ray, testAlphaTexture)`. -/
def Shape.virtIntersectP (s : Shape F T B Ray SI Inter) (ray : Ray)
    (testAlphaTexture : Bool := true) : Bool :=
  match s.IntersectPOverride with
  | some f => f ray testAlphaTexture
  | none => s.IntersectP ray testAlphaTexture

/-- Virtual call `shape->Pdf(interaction)`. -/
def Shape.virtPdf [One F] [Div F] (s : Shape F T B Ray SI Inter) (i : Inter) : F :=
  match s.PdfOverride with
  | some f => f i
  | none => s.Pdf i

/-! ## Geometry and the member functions defined outside `shape.h`

`shape.h` only declares the constructor and `WorldBound`; their bodies, and
the types `Transform` and `Bounds3f`, live in files that are not part of the
sources at hand.  They are modelled from the specification, over an ordered
commutative ring `R` of coordinates. -/

/-- Modelled from the spec: a point of space (`Point3f`, from `geometry.h`,
which is missing). -/
structure Point3 (R : Type) where
  x : R
  y : R
  z : R
  deriving DecidableEq, Repr

/-- Modelled from the spec: an axis-aligned bounding box (`Bounds3f`, from
`geometry.h`, which is missing), given by its two extreme corners. -/
structure Bounds3 (R : Type) where
  pMin : Point3 R
  pMax : Point3 R
  deriving DecidableEq, Repr

/-- Modelled from the spec: an affine transform (`Transform`, from
`transform.h`, which is missing), given by its homogeneous 4x4 matrix. -/
structure Transform (R : Type) where
  m : Matrix (Fin 4) (Fin 4) R

section Geometry

variable {R : Type} [LinearOrderedCommRing R]

/-- Modelled from the spec: one of the eight corners of a box; bit 0 of the
index picks the x extreme, bit 1 the y extreme, bit 2 the z extreme
(`Bounds3::Corner` is missing). -/
def Bounds3.Corner (b : Bounds3 R) (corner : Fin 8) : Point3 R :=
  ⟨if corner.val % 2 = 1 then b.pMax.x else b.pMin.x,
   if corner.val / 2 % 2 = 1 then b.pMax.y else b.pMin.y,
   if corner.val / 4 % 2 = 1 then b.pMax.z else b.pMin.z⟩

/-- Modelled from the spec: the box that holds a single point. -/
def Bounds3.ofPoint (p : Point3 R) : Bounds3 R := ⟨p, p⟩

/-- Modelled from the spec: the smallest axis-aligned box that encloses a box
and a point (`Union` is missing). -/
def Bounds3.Union (b : Bounds3 R) (p : Point3 R) : Bounds3 R :=
  ⟨⟨min b.pMin.x p.x, min b.pMin.y p.y, min b.pMin.z p.z⟩,
   ⟨max b.pMax.x p.x, max b.pMax.y p.y, max b.pMax.z p.z⟩⟩

/-- Modelled from the spec: the point lies in the box, faces included
(`Inside` is missing). -/
def Bounds3.Inside (p : Point3 R) (b : Bounds3 R) : Bool :=
  decide (b.pMin.x ≤ p.x) && decide (p.x ≤ b.pMax.x) &&
  decide (b.pMin.y ≤ p.y) && decide (p.y ≤ b.pMax.y) &&
  decide (b.pMin.z ≤ p.z) && decide (p.z ≤ b.pMax.z)

/-- Modelled from the spec: image of a point under the affine map of a
transform (`Transform::operator()` on points is missing). -/
def Transform.applyPoint (t : Transform R) (p : Point3 R) : Point3 R :=
  ⟨t.m 0 0 * p.x + t.m 0 1 * p.y + t.m 0 2 * p.z + t.m 0 3,
   t.m 1 0 * p.x + t.m 1 1 * p.y + t.m 1 2 * p.z + t.m 1 3,
   t.m 2 0 * p.x + t.m 2 1 * p.y + t.m 2 2 * p.z + t.m 2 3⟩

/-- Modelled from the spec: transform of an axis-aligned box by an affine
map, "a new axis-aligned box enclosing the transformed corners"
(`Transform::operator()` on boxes is missing). -/
def Transform.applyBounds (t : Transform R) (b : Bounds3 R) : Bounds3 R :=
  ((List.finRange 8).map (fun c => t.applyPoint (b.Corner c))).foldl Bounds3.Union
    (Bounds3.ofPoint (t.applyPoint (b.Corner 0)))

/-- Modelled from the spec: determinant of the linear (upper-left 3x3) part
of a transform, by cofactor expansion along the first row. -/
def Transform.det3 (t : Transform R) : R :=
  t.m 0 0 * (t.m 1 1 * t.m 2 2 - t.m 1 2 * t.m 2 1) -
  t.m 0 1 * (t.m 1 0 * t.m 2 2 - t.m 1 2 * t.m 2 0) +
  t.m 0 2 * (t.m 1 0 * t.m 2 1 - t.m 1 1 * t.m 2 0)

/-- Modelled from the spec: "true when the transform flips chirality", that
is when the determinant of its linear part is negative
(`Transform::SwapsHandedness` is missing). -/
def Transform.SwapsHandedness (t : Transform R) : Bool :=
  decide (t.det3 < 0)

/-- The linear part of a transform as a 3x3 matrix. -/
def Transform.linearPart (t : Transform R) : Matrix (Fin 3) (Fin 3) R :=
  fun i j => t.m (Fin.castLE (by decide) i) (Fin.castLE (by decide) j)

/-- Modelled from the spec: the constructor `Shape::Shape` (declared in
shape.h, lines 54 and 55; its body is missing).  It stores the two transforms
and the flag, and derives `transformSwapsHandedness` from the determinant sign
of `ObjectToWorld`. -/
def Shape.ctor (ObjectToWorld WorldToObject : Transform R) (reverseOrientation : Bool) :
    ShapeData (Transform R) where
  ObjectToWorld := ObjectToWorld
  WorldToObject := WorldToObject
  reverseOrientation := reverseOrientation
  transformSwapsHandedness := ObjectToWorld.SwapsHandedness

/-- Modelled from the spec: body of `Shape::WorldBound` (declared in shape.h,
line 60; its body is missing): "transform `ObjectBound()` through
`objectToWorld`". -/
def Shape.WorldBound (s : Shape F (Transform R) (Bounds3 R) Ray SI Inter) : Bounds3 R :=
  s.ObjectToWorld.applyBounds s.ObjectBound

/-- Virtual call `shape->WorldBound()`. -/
def Shape.virtWorldBound (s : Shape F (Transform R) (Bounds3 R) Ray SI Inter) : Bounds3 R :=
  match s.WorldBoundOverride with
  | some b => b
  | none => s.WorldBound

end Geometry

/-! ## Member functions in state-passing form

The member functions are declared `const`, and `reverseOrientation` and
`transformSwapsHandedness` are `const` members, but line 98 declares
`ObjectToWorld` and `WorldToObject` as plain pointers to `const Transform`:
the pointers themselves can be assigned.  A member function of a derived
class can therefore re-seat them (through a `const_cast` of `this`).  To
speak of the data members before and after a call, every virtual member
function gets the data members as an argument and returns them next to its
result. -/

/-- The pure virtual member functions `Intersect` and `Area` of a derived
class, in state-passing form: each reads the data members of the object and
returns its result together with the data members as it leaves them. -/
structure DerivedClass (F T Ray SI : Type) where
  Intersect : ShapeData T → Ray → Ptr F → Ptr SI → Bool → IntersectResult F SI × ShapeData T
  Area : ShapeData T → F × ShapeData T

/-- Body of `Shape::IntersectP` (shape.h, lines 72 to 75) in state-passing
form: the one call of `Intersect`, whose boolean is returned and whose
post-state is the post-state of `IntersectP`. -/
def DerivedClass.IntersectP (c : DerivedClass F T Ray SI) (d : ShapeData T) (ray : Ray)
    (testAlphaTexture : Bool := true) : Bool × ShapeData T :=
  let r := c.Intersect d ray none none testAlphaTexture
  (r.1.ret, r.2)

/-- Body of the area-based `Shape::Pdf` (shape.h, line 81) in state-passing
form: the one call of `Area`, whose post-state is the post-state of `Pdf`. -/
def DerivedClass.Pdf [One F] [Div F] (c : DerivedClass F T Ray SI) (d : ShapeData T)
    (_ : Inter) : F × ShapeData T :=
  let r := c.Area d
  (1 / r.1, r.2)

/-! ## Example objects -/

/-- A toy derived class over `float`: rays are numbered, a ray hits when its
number is below ten, and the alpha texture cuts out the odd ones.  The hit
distance is written only through a non-null `tHit`.  An interaction is
stood for by its position. -/
def toyShape (area : IEEEFloat .single) :
    Shape (IEEEFloat .single) Unit Unit Nat Unit (Point3 Int) where
  ObjectToWorld := ()
  WorldToObject := ()
  reverseOrientation := false
  transformSwapsHandedness := false
  ObjectBound := ()
  Intersect := fun ray tHit isect testAlphaTexture =>
    let hit := decide (ray < 10) && (!testAlphaTexture || ray % 2 == 0)
    if hit then ⟨true, tHit.map (fun _ => 1), isect⟩ else ⟨false, tHit, isect⟩
  Area := area
  WorldBoundOverride := none
  IntersectPOverride := none
  PdfOverride := none

/-- A derived class whose `Intersect` does not tolerate null outputs: it
reports a miss whenever `tHit` is `nullptr`, and a hit otherwise. -/
def nullSensitiveShape : Shape (IEEEFloat .single) Unit Unit Nat Unit Unit where
  ObjectToWorld := ()
  WorldToObject := ()
  reverseOrientation := false
  transformSwapsHandedness := false
  ObjectBound := ()
  Intersect := fun _ tHit isect _ =>
    match tHit with
    | none => ⟨false, none, isect⟩
    | some _ => ⟨true, some 1, isect⟩
  Area := 1
  WorldBoundOverride := none
  IntersectPOverride := none
  PdfOverride := none

/-- A box `[0,1] x [0,2] x [0,3]` over integer coordinates, placed in the
world by a quarter turn about the z axis followed by a shift of 5 along x.
It overrides none of the defaulted member functions. -/
def boxShape : Shape (IEEEFloat .single) (Transform Int) (Bounds3 Int) Nat Unit Unit where
  ObjectToWorld := ⟨Matrix.of ![![0, -1, 0, 5], ![1, 0, 0, 0], ![0, 0, 1, 0], ![0, 0, 0, 1]]⟩
  WorldToObject := ⟨Matrix.of ![![0, 1, 0, 0], ![-1, 0, 0, 5], ![0, 0, 1, 0], ![0, 0, 0, 1]]⟩
  reverseOrientation := false
  transformSwapsHandedness := false
  ObjectBound := ⟨⟨0, 0, 0⟩, ⟨1, 2, 3⟩⟩
  Intersect := fun _ tHit isect _ => ⟨false, tHit, isect⟩
  Area := 1
  WorldBoundOverride := none
  IntersectPOverride := none
  PdfOverride := none

/-- C1: a shape that does not override `IntersectP` answers
`IntersectP(ray, a)` with the boolean that its own `Intersect` returns for the
same ray, two null output pointers and the same flag `a`. -/
theorem IntersectP_default_delegates (s : Shape F T B Ray SI Inter) (ray : Ray) (a : Bool)
    (hov : s.IntersectPOverride = none) :
    s.virtIntersectP ray a = (s.Intersect ray none none a).ret := by
  simp [Shape.virtIntersectP, hov, Shape.IntersectP]

theorem IntersectP_default_delegates_witness :
    (toyShape 1).IntersectPOverride = none ∧
      (toyShape 1).virtIntersectP 4 false = ((toyShape 1).Intersect 4 none none false).ret :=
  ⟨rfl, IntersectP_default_delegates (toyShape 1) 4 false rfl⟩

/-- C2, as stated, fails: `nullSensitiveShape` does not override `IntersectP`,
its `IntersectP(3, true)` is false, and its `Intersect(3, tHit, isect, true)`
with non-null outputs is true. -/
theorem existence_consistency_fails :
    nullSensitiveShape.IntersectPOverride = none ∧
      ¬ (nullSensitiveShape.virtIntersectP 3 true = true ↔
          (nullSensitiveShape.Intersect 3 (some 0) (some ()) true).ret = true) := by
  refine ⟨rfl, ?_⟩
  simp [Shape.virtIntersectP, Shape.IntersectP, nullSensitiveShape]

/-- C2, amended: for a shape that does not override `IntersectP` and whose
`Intersect` returns the same boolean with null outputs as with non-null ones,
`IntersectP(ray, a)` is true exactly when `Intersect(ray, tHit, isect, a)`
with non-null outputs is true. -/
theorem existence_consistency_of_null_tolerant (s : Shape F T B Ray SI Inter)
    (hov : s.IntersectPOverride = none)
    (htol : ∀ (ray : Ray) (t : F) (si : SI) (a : Bool),
      (s.Intersect ray none none a).ret = (s.Intersect ray (some t) (some si) a).ret)
    (ray : Ray) (t : F) (si : SI) (a : Bool) :
    s.virtIntersectP ray a = true ↔ (s.Intersect ray (some t) (some si) a).ret = true := by
  simp [Shape.virtIntersectP, hov, Shape.IntersectP, htol ray t si a]

theorem existence_consistency_of_null_tolerant_witness :
    (toyShape 1).virtIntersectP 4 true = true ↔
      ((toyShape 1).Intersect 4 (some 0) (some ()) true).ret = true :=
  existence_consistency_of_null_tolerant (toyShape 1) rfl
    (by
      intro ray t si a
      simp only [toyShape]
      split <;> rfl)
    4 0 () true

/-- C9: with the flag omitted, the default `IntersectP` tests the alpha
texture: `IntersectP(ray)` is `IntersectP(ray, true)`, which is the boolean of
`Intersect(ray, nullptr, nullptr, true)`. -/
theorem IntersectP_omitted_flag (s : Shape F T B Ray SI Inter) (ray : Ray)
    (hov : s.IntersectPOverride = none) :
    s.virtIntersectP ray = s.virtIntersectP ray true ∧
      s.virtIntersectP ray true = (s.Intersect ray none none true).ret := by
  simp [Shape.virtIntersectP, hov, Shape.IntersectP]

theorem IntersectP_omitted_flag_witness :
    (toyShape 1).virtIntersectP 5 = (toyShape 1).virtIntersectP 5 true ∧
      (toyShape 1).virtIntersectP 5 true = ((toyShape 1).Intersect 5 none none true).ret :=
  IntersectP_omitted_flag (toyShape 1) 5 rfl

/-! ## Theorems: the area-based `Pdf` -/

/-- C3: a shape that does not override the area-based `Pdf` answers
`Pdf(interaction)` with 1 divided by what its `Area()` returns. -/
theorem Pdf_default_eq_one_div_area [One F] [Div F] (s : Shape F T B Ray SI Inter) (i : Inter)
    (hov : s.PdfOverride = none) :
    s.virtPdf i = 1 / s.Area := by
  simp [Shape.virtPdf, hov, Shape.Pdf]

theorem Pdf_default_eq_one_div_area_witness :
    (toyShape ⟨false, 128, 0⟩).virtPdf ⟨0, 0, 0⟩ = 1 / (toyShape ⟨false, 128, 0⟩).Area ∧
      (1 : IEEEFloat .single) / (toyShape ⟨false, 128, 0⟩).Area = ⟨false, 126, 0⟩ :=
  ⟨Pdf_default_eq_one_div_area (toyShape ⟨false, 128, 0⟩) ⟨0, 0, 0⟩ rfl, by
    decide⟩

/-- C8: the default area-based `Pdf` ignores its argument: any two
interactions get the same density. -/
theorem Pdf_default_ignores_argument [One F] [Div F] (s : Shape F T B Ray SI Inter)
    (i1 i2 : Inter) (hov : s.PdfOverride = none) :
    s.virtPdf i1 = s.virtPdf i2 := by
  simp [Shape.virtPdf, hov, Shape.Pdf]

theorem Pdf_default_ignores_argument_witness :
    (toyShape ⟨false, 128, 0⟩).virtPdf ⟨0, 0, 0⟩ = (toyShape ⟨false, 128, 0⟩).virtPdf ⟨7, -1, 4⟩ :=
  Pdf_default_ignores_argument (toyShape ⟨false, 128, 0⟩) ⟨0, 0, 0⟩ ⟨7, -1, 4⟩ rfl

/-- C4, as stated, fails: `toyShape 0` has area `+0` and does not override
`Pdf`, and its `Pdf` is `+infinity`: not zero and not finite. -/
theorem Pdf_default_zero_area_not_zero :
    (toyShape 0).PdfOverride = none ∧ (toyShape 0).Area = 0 ∧
      (toyShape 0).virtPdf ⟨0, 0, 0⟩ = IEEEFloat.inf .single false ∧
      (toyShape 0).virtPdf ⟨0, 0, 0⟩ ≠ 0 ∧ ((toyShape 0).virtPdf ⟨0, 0, 0⟩).isFinite = false := by
  have h : (toyShape 0).virtPdf ⟨0, 0, 0⟩ = IEEEFloat.inf .single false := by decide
  refine ⟨rfl, rfl, h, ?_, ?_⟩
  · rw [h]; decide
  · rw [h]; decide

/-- C4, amended: the default area-based `Pdf` has no guard.  For a shape
that does not override it and whose `Area()` returns a zero of either sign,
`Pdf` returns the IEEE quotient `1 / Area()`, the infinity of that sign, which
is neither zero nor finite. -/
theorem Pdf_default_zero_area_infinite (k : FloatKind) (s : Shape (IEEEFloat k) T B Ray SI Inter)
    (i : Inter) (sg : Bool) (hov : s.PdfOverride = none) (hA : s.Area = IEEEFloat.zero k sg) :
    s.virtPdf i = IEEEFloat.inf k sg ∧ (s.virtPdf i).isZero = false ∧
      (s.virtPdf i).isFinite = false := by
  have h : s.virtPdf i = IEEEFloat.inf k sg := by
    simp only [Shape.virtPdf, hov, Shape.Pdf, hA]
    cases k <;> cases sg <;> decide
  rw [h]
  cases k <;> cases sg <;> decide

theorem Pdf_default_zero_area_infinite_witness :
    (toyShape (IEEEFloat.zero .single true)).virtPdf ⟨0, 0, 0⟩ = IEEEFloat.inf .single true ∧
      ((toyShape (IEEEFloat.zero .single true)).virtPdf ⟨0, 0, 0⟩).isZero = false ∧
      ((toyShape (IEEEFloat.zero .single true)).virtPdf ⟨0, 0, 0⟩).isFinite = false :=
  Pdf_default_zero_area_infinite .single (toyShape (IEEEFloat.zero .single true)) ⟨0, 0, 0⟩ true rfl rfl

/-! ## Theorems: the data members across a call -/

section GeometryTheorems

variable {R : Type} [LinearOrderedCommRing R]

theorem Transform.det3_eq_det (t : Transform R) : t.det3 = t.linearPart.det := by
  rw [Matrix.det_fin_three]
  simp only [Transform.det3, Transform.linearPart]
  have h0 : Fin.castLE (by decide : 3 ≤ 4) (0 : Fin 3) = 0 := rfl
  have h1 : Fin.castLE (by decide : 3 ≤ 4) (1 : Fin 3) = 1 := rfl
  have h2 : Fin.castLE (by decide : 3 ≤ 4) (2 : Fin 3) = 2 := rfl
  rw [h0, h1, h2]
  ring

theorem Bounds3.inside_union_self (b : Bounds3 R) (p : Point3 R) :
    Bounds3.Inside p (b.Union p) = true := by
  simp [Bounds3.Inside, Bounds3.Union]

theorem Bounds3.inside_union_of_inside (b : Bounds3 R) (p q : Point3 R)
    (h : Bounds3.Inside p b = true) : Bounds3.Inside p (b.Union q) = true := by
  simp only [Bounds3.Inside, Bool.and_eq_true, decide_eq_true_eq] at h
  obtain ⟨⟨⟨⟨⟨h1, h2⟩, h3⟩, h4⟩, h5⟩, h6⟩ := h
  simp [Bounds3.Inside, Bounds3.Union, h1, h2, h3, h4, h5, h6]

theorem Bounds3.inside_foldl_union (ps : List (Point3 R)) (b : Bounds3 R) (p : Point3 R)
    (h : Bounds3.Inside p b = true ∨ p ∈ ps) :
    Bounds3.Inside p (ps.foldl Bounds3.Union b) = true := by
  induction ps generalizing b with
  | nil =>
    rcases h with h | h
    · exact h
    · exact absurd h (List.not_mem_nil p)
  | cons q qs ih =>
    rw [List.foldl_cons]
    apply ih
    rcases h with h | h
    · exact Or.inl (Bounds3.inside_union_of_inside b p q h)
    · rcases List.mem_cons.mp h with h | h
      · exact Or.inl (h ▸ Bounds3.inside_union_self b p)
      · exact Or.inr h

theorem Transform.applyBounds_contains_corner (t : Transform R) (b : Bounds3 R) (c : Fin 8) :
    Bounds3.Inside (t.applyPoint (b.Corner c)) (t.applyBounds b) = true := by
  apply Bounds3.inside_foldl_union
  exact Or.inr (List.mem_map.mpr ⟨c, List.mem_finRange c, rfl⟩)

/-- C6: the constructor sets `transformSwapsHandedness` to true exactly when
the determinant of the linear (upper-left 3x3) part of `ObjectToWorld` is
negative, and stores its argument in `reverseOrientation`. -/
theorem ctor_transformSwapsHandedness_iff (o2w w2o : Transform R) (ro : Bool) :
    ((Shape.ctor o2w w2o ro).transformSwapsHandedness = true ↔ o2w.linearPart.det < 0) ∧
      (Shape.ctor o2w w2o ro).reverseOrientation = ro := by
  refine ⟨?_, rfl⟩
  simp [Shape.ctor, Transform.SwapsHandedness, Transform.det3_eq_det]

/-- C7: for a shape that does not override `WorldBound`, `WorldBound()` is
the transform of `ObjectBound()` through `ObjectToWorld`, and this box
contains the image under `ObjectToWorld` of each of the eight corners of
`ObjectBound()`. -/
theorem WorldBound_default_contains_corners
    (s : Shape F (Transform R) (Bounds3 R) Ray SI Inter) (hov : s.WorldBoundOverride = none) :
    s.virtWorldBound = s.ObjectToWorld.applyBounds s.ObjectBound ∧
      ∀ c : Fin 8,
        Bounds3.Inside (s.ObjectToWorld.applyPoint (s.ObjectBound.Corner c)) s.virtWorldBound
          = true := by
  have h : s.virtWorldBound = s.ObjectToWorld.applyBounds s.ObjectBound := by
    simp [Shape.virtWorldBound, hov, Shape.WorldBound]
  refine ⟨h, fun c => ?_⟩
  rw [h]
  exact Transform.applyBounds_contains_corner _ _ c

theorem WorldBound_default_contains_corners_witness :
    boxShape.virtWorldBound = boxShape.ObjectToWorld.applyBounds boxShape.ObjectBound ∧
      ∀ c : Fin 8,
        Bounds3.Inside (boxShape.ObjectToWorld.applyPoint (boxShape.ObjectBound.Corner c))
          boxShape.virtWorldBound = true :=
  WorldBound_default_contains_corners boxShape rfl

theorem boxShape_WorldBound : boxShape.virtWorldBound = ⟨⟨3, 0, 0⟩, ⟨5, 1, 3⟩⟩ := by decide

theorem mirror_ctor :
    (Shape.ctor (R := Int) ⟨Matrix.of ![![-1, 0, 0, 0], ![0, 1, 0, 0], ![0, 0, 1, 0], ![0, 0, 0, 1]]⟩
      ⟨Matrix.of ![![-1, 0, 0, 0], ![0, 1, 0, 0], ![0, 0, 1, 0], ![0, 0, 0, 1]]⟩
      false).transformSwapsHandedness = true := by
  decide

theorem boxShape_ctor :
    Shape.ctor boxShape.ObjectToWorld boxShape.WorldToObject true =
      ⟨boxShape.ObjectToWorld, boxShape.WorldToObject, true, false⟩ := by
  have h : boxShape.ObjectToWorld.SwapsHandedness = false := by decide
  simp [Shape.ctor, h]

end GeometryTheorems

end pbrt
